import Mathlib

/-!
Verification of the V4L2 Camera HAL v3.4 core (default_camera_hal::Camera,
v4l2_camera_hal::V4L2Camera, v4l2_camera_hal::V4L2Wrapper and the partial
metadata components) against its natural-language specification.

The C++ sources are shallowly embedded: machine integers become `Int` with
explicit `% 2^32` where narrowing matters, fallible calls return error codes
as in the source (0 on success, negative errno on failure), and the stateful
objects become explicit state records threaded through the operations.
Driver/ioctl behaviour is a parameter (a `Driver` record), and every
operation also reports the list of ioctls it actually issued so that
claims about "no ioctl is attempted" are statable.
-/

namespace CameraHal

/-! ### Errno and framework constants (from errno.h / camera3.h / videodev2.h) -/

def EINVAL : Int := 22
def ENODEV : Int := 19
def EBUSY : Int := 16
def EIO : Int := 5
def ENOTTY : Int := 25

/-- CAMERA3_TEMPLATE_* enum values from hardware/camera3.h. -/
def CAMERA3_TEMPLATE_PREVIEW : Int := 1
def CAMERA3_TEMPLATE_STILL_CAPTURE : Int := 2
def CAMERA3_TEMPLATE_VIDEO_RECORD : Int := 3
def CAMERA3_TEMPLATE_VIDEO_SNAPSHOT : Int := 4
def CAMERA3_TEMPLATE_ZERO_SHUTTER_LAG : Int := 5
def CAMERA3_TEMPLATE_MANUAL : Int := 6
def CAMERA3_TEMPLATE_COUNT : Int := 7

/-- CAMERA3_MSG_ERROR_REQUEST from hardware/camera3.h. -/
def CAMERA3_MSG_ERROR_REQUEST : Int := 1

/-- HAL pixel formats (system/graphics.h). -/
def HAL_PIXEL_FORMAT_RAW16 : Int := 32
def HAL_PIXEL_FORMAT_BLOB : Int := 33
def HAL_PIXEL_FORMAT_IMPLEMENTATION_DEFINED : Int := 34
def HAL_PIXEL_FORMAT_YCbCr_420_888 : Int := 35

/-- CAMERA3_STREAM_CONFIGURATION_NORMAL_MODE from hardware/camera3.h. -/
def CAMERA3_STREAM_CONFIGURATION_NORMAL_MODE : Nat := 0

/-- V4L2 control types from linux/videodev2.h. -/
def V4L2_CTRL_TYPE_INTEGER : Int := 1
def V4L2_CTRL_TYPE_INTEGER64 : Int := 5
def V4L2_CTRL_TYPE_STRING : Int := 7
def V4L2_CTRL_TYPE_BITMASK : Int := 8

/-- ANDROID_SENSOR_TIMESTAMP metadata tag (system/camera_metadata_tags.h). -/
def ANDROID_SENSOR_TIMESTAMP : Nat := 917520

/-! ### Ioctl identifiers (symbolic; only identity matters for the claims) -/

inductive Ioctl where
  | queryExtCtrl
  | queryctrl
  | querymenu
  | gCtrl
  | sCtrl
  | sFmt
  | reqbufs
  | querybuf
  | qbuf
  | dqbuf
  | streamon
  | streamoff
deriving DecidableEq, Repr

/-! ### V4L2Wrapper::QueryControl fallback conversion (part_002 lines 184-212)

`v4l2_queryctrl` carries 32-bit signed fields; `v4l2_query_ext_ctrl` carries
64-bit fields.  A 32-bit signed value is an `Int` in `[-2^31, 2^31)`; the
C++ `static_cast<uint32_t>` of such a value is its representative modulo
`2^32` in `[0, 2^32)`, which we write with `Int.emod`. -/

/-- Fields of `v4l2_queryctrl` (the basic, 32-bit query result). -/
structure V4l2Queryctrl where
  id : Nat
  ctype : Int
  minimum : Int
  maximum : Int
  step : Int
  default_value : Int
  flags : Nat
deriving DecidableEq, Repr

/-- Fields of `v4l2_query_ext_ctrl` (the extended, 64-bit query result). -/
structure V4l2QueryExtCtrl where
  id : Nat
  ctype : Int
  minimum : Int
  maximum : Int
  step : Int
  default_value : Int
  flags : Nat
  elems : Nat
  elem_size : Int
deriving DecidableEq, Repr

/-- C++ `static_cast<uint32_t>` applied to a 32-bit signed value: reduce
modulo `2^32` into `[0, 2^32)`. -/
def toUInt32 (x : Int) : Int := x % 2 ^ 32

/-- Normalization of a basic `v4l2_queryctrl` result into the extended
shape, as done by the `VIDIOC_QUERYCTRL` fallback branch of
`V4L2Wrapper::QueryControl` (part_002 lines 184-212).  For `BITMASK`
controls `maximum` and `default_value` pass through
`static_cast<uint32_t>` before widening (zero-extension); otherwise the
32-bit signed values are copied into the 64-bit fields unchanged
(sign-preserving).  `step` is always cast through `uint32_t`. -/
def queryctrlToExtended (q : V4l2Queryctrl) : V4l2QueryExtCtrl :=
  let maximum : Int :=
    if q.ctype = V4L2_CTRL_TYPE_BITMASK then toUInt32 q.maximum else q.maximum
  let default_value : Int :=
    if q.ctype = V4L2_CTRL_TYPE_BITMASK then toUInt32 q.default_value
    else q.default_value
  let elem_size : Int :=
    if q.ctype = V4L2_CTRL_TYPE_INTEGER64 then 8
    else if q.ctype = V4L2_CTRL_TYPE_STRING then maximum + 1
    else 4
  { id := q.id
    ctype := q.ctype
    minimum := q.minimum
    maximum := maximum
    step := toUInt32 q.step
    default_value := default_value
    flags := q.flags
    elems := 1
    elem_size := elem_size }

/-! ### Streams and stream formats

`default_camera_hal::Stream` wraps a `camera3_stream_t`; `StreamFormat`
(stream_format.h) is determined by the stream parameters (pixel format,
width, height).  The StreamFormat comparison operators compare exactly
those determining parameters, so the format cache comparison in
`V4L2Wrapper::SetFormat` is modelled as equality of this record. -/

inductive StreamType where
  | output
  | input
  | bidirectional
deriving DecidableEq, Repr

structure StreamParams where
  format : Int
  width : Nat
  height : Nat
  stype : StreamType
  rotation : Nat
deriving DecidableEq, Repr

/-- `Stream::isInputType`: the stream type is INPUT or BIDIRECTIONAL. -/
def StreamParams.isInputType (s : StreamParams) : Bool :=
  s.stype = StreamType.input || s.stype = StreamType.bidirectional

/-- `Stream::isOutputType`: the stream type is OUTPUT or BIDIRECTIONAL. -/
def StreamParams.isOutputType (s : StreamParams) : Bool :=
  s.stype = StreamType.output || s.stype = StreamType.bidirectional

structure StreamFormat where
  halFormat : Int
  width : Nat
  height : Nat
deriving DecidableEq, Repr

/-- `StreamFormat::StreamFormat(const Stream&)`: the format is derived from
the stream parameters. -/
def StreamFormat.ofStream (s : StreamParams) : StreamFormat :=
  { halFormat := s.format, width := s.width, height := s.height }

/-! ### V4L2Wrapper state and driver model (part_002)

The wrapper guards a device fd, a cached `StreamFormat`, a `max_buffers_`
count and the `extended_query_supported_` probe result.  The kernel driver
responses are a parameter; an `Except Int` result carries the errno a
failing ioctl would set. -/

structure WrapperState where
  connected : Bool
  format : Option StreamFormat
  maxBuffers : Nat
  extendedQuerySupported : Bool
deriving DecidableEq, Repr

structure Driver where
  /-- VIDIOC_STREAMON outcome. -/
  streamon : Bool
  /-- VIDIOC_STREAMOFF outcome. -/
  streamoff : Bool
  /-- VIDIOC_QUERY_EXT_CTRL outcome per control id. -/
  queryExtCtrl : Nat → Except Int V4l2QueryExtCtrl
  /-- VIDIOC_QUERYCTRL outcome per control id. -/
  queryctrl : Nat → Except Int V4l2Queryctrl
  /-- VIDIOC_G_CTRL reported value per control id. -/
  gCtrl : Nat → Option Int
  /-- VIDIOC_S_CTRL final value per (control id, desired). -/
  sCtrl : Nat → Int → Option Int
  /-- VIDIOC_S_FMT: format the driver actually sets, given the request. -/
  sFmt : StreamFormat → Except Int StreamFormat
  /-- VIDIOC_REQBUFS: granted buffer count for a request of count 1. -/
  reqbufs : Except Int Nat
  /-- VIDIOC_QUERYBUF outcome. -/
  querybuf : Bool
  /-- VIDIOC_QBUF outcome. -/
  qbuf : Bool
  /-- VIDIOC_DQBUF outcome. -/
  dqbuf : Bool
  /-- Result of `gralloc_->lock`. -/
  grallocLock : Int
  /-- Result of `gralloc_->unlock`. -/
  grallocUnlock : Int
  /-- Result of `gralloc_->unlockAllBuffers`. -/
  grallocUnlockAll : Int

/-- Result of a wrapper operation: return code, post state, and the list of
ioctls actually issued to the device (empty when `IoctlLocked` rejects the
call before reaching the `ioctl` system call). -/
structure OpResult where
  ret : Int
  st : WrapperState
  ioctls : List Ioctl
deriving DecidableEq, Repr

/-- `V4L2Wrapper::StreamOn` (part_002 lines 115-130). -/
def StreamOn (d : Driver) (st : WrapperState) : OpResult :=
  match st.format with
  | none => ⟨-EINVAL, st, []⟩
  | some _ =>
    if st.connected then
      if d.streamon then ⟨0, st, [Ioctl.streamon]⟩
      else ⟨-ENODEV, st, [Ioctl.streamon]⟩
    else ⟨-ENODEV, st, []⟩

/-- `V4L2Wrapper::StreamOff` (part_002 lines 132-154). -/
def StreamOff (d : Driver) (st : WrapperState) : OpResult :=
  match st.format with
  | none => ⟨-ENODEV, st, []⟩
  | some _ =>
    let res : Int × List Ioctl :=
      if st.connected then
        (if d.streamoff then 0 else -1, [Ioctl.streamoff])
      else (-ENODEV, [])
    if res.1 < 0 then ⟨-ENODEV, st, res.2⟩
    else if d.grallocUnlockAll < 0 then ⟨d.grallocUnlockAll, st, res.2⟩
    else ⟨0, st, res.2⟩

/-- Fallback tail of `V4L2Wrapper::QueryControl`: the basic
`VIDIOC_QUERYCTRL` query followed by normalization into the extended
shape (part_002 lines 176-214).  `pre` is the list of ioctls issued before
reaching the fallback. -/
def queryControlFallback (d : Driver) (st : WrapperState) (cid : Nat)
    (pre : List Ioctl) : Int × Option V4l2QueryExtCtrl × List Ioctl :=
  if st.connected then
    match d.queryctrl cid with
    | Except.error _ => (-ENODEV, none, pre ++ [Ioctl.queryctrl])
    | Except.ok q => (0, some (queryctrlToExtended q), pre ++ [Ioctl.queryctrl])
  else (-ENODEV, none, pre)

/-- `V4L2Wrapper::QueryControl` (part_002 lines 156-215).  `ambientErrno`
is the value of `errno` on entry; the code compares `errno` against
`ENOTTY` after `IoctlLocked`, and when no ioctl was issued (or the ioctl
succeeded) that comparison reads the stale ambient value. -/
def QueryControl (d : Driver) (st : WrapperState) (ambientErrno : Int)
    (cid : Nat) : Int × Option V4l2QueryExtCtrl × List Ioctl :=
  if st.extendedQuerySupported then
    if st.connected then
      match d.queryExtCtrl cid with
      | Except.ok r =>
        if ambientErrno ≠ ENOTTY then (0, some r, [Ioctl.queryExtCtrl])
        else queryControlFallback d st cid [Ioctl.queryExtCtrl]
      | Except.error e =>
        if e ≠ ENOTTY then (-ENODEV, none, [Ioctl.queryExtCtrl])
        else queryControlFallback d st cid [Ioctl.queryExtCtrl]
    else
      -- IoctlLocked returns -ENODEV without issuing an ioctl; errno is stale.
      if ambientErrno ≠ ENOTTY then (-ENODEV, none, [])
      else queryControlFallback d st cid []
  else queryControlFallback d st cid []

/-- `V4L2Wrapper::GetControl` (part_002 lines 217-228). -/
def GetControl (d : Driver) (st : WrapperState) (cid : Nat) :
    Int × Option Int × List Ioctl :=
  if st.connected then
    match d.gCtrl cid with
    | none => (-ENODEV, none, [Ioctl.gCtrl])
    | some v => (0, some v, [Ioctl.gCtrl])
  else (-ENODEV, none, [])

/-- `V4L2Wrapper::SetControl` (part_002 lines 230-248). -/
def SetControl (d : Driver) (st : WrapperState) (cid : Nat) (desired : Int) :
    Int × Option Int × List Ioctl :=
  if st.connected then
    match d.sCtrl cid desired with
    | none => (-ENODEV, none, [Ioctl.sCtrl])
    | some v => (0, some v, [Ioctl.sCtrl])
  else (-ENODEV, none, [])

/-- `V4L2Wrapper::SetupBuffers` (part_002 lines 295-331).  Note the order:
`max_buffers_` is assigned from the granted count before the `< 1` sanity
check, and `gralloc_->unlockAllBuffers` runs unconditionally after the
ioctl. -/
def SetupBuffers (d : Driver) (st : WrapperState) : OpResult :=
  match st.format with
  | none => ⟨-ENODEV, st, []⟩
  | some _ =>
    if st.connected then
      match d.reqbufs with
      | Except.error _ => ⟨-ENODEV, st, [Ioctl.reqbufs]⟩
      | Except.ok granted =>
        if d.grallocUnlockAll < 0 then ⟨d.grallocUnlockAll, st, [Ioctl.reqbufs]⟩
        else
          let st1 := { st with maxBuffers := granted }
          if granted < 1 then ⟨-ENODEV, st1, [Ioctl.reqbufs]⟩
          else ⟨0, st1, [Ioctl.reqbufs]⟩
    else
      -- res = -ENODEV from IoctlLocked (no ioctl issued); the res < 0 branch
      -- wins before the gralloc result is examined.
      ⟨-ENODEV, st, []⟩

/-- Result of `V4L2Wrapper::SetFormat`: the out-parameter
`result_max_buffers` is `none` when the source does not write it (the
early "already in correct format" return leaves it untouched). -/
structure SetFormatResult where
  ret : Int
  st : WrapperState
  ioctls : List Ioctl
  resultMaxBuffers : Option Nat
deriving DecidableEq, Repr

/-- `V4L2Wrapper::SetFormat` (part_002 lines 250-293).  The cached format
is compared against the format the requested stream determines; on a match
the call returns 0 immediately (without writing the out-parameter). -/
def SetFormat (d : Driver) (st : WrapperState) (stream : StreamParams) :
    SetFormatResult :=
  if stream.isInputType then ⟨-EINVAL, st, [], none⟩
  else if st.format = some (StreamFormat.ofStream stream) then ⟨0, st, [], none⟩
  else if st.connected then
    match d.sFmt (StreamFormat.ofStream stream) with
    | Except.error _ => ⟨-ENODEV, st, [Ioctl.sFmt], none⟩
    | Except.ok returned =>
      if StreamFormat.ofStream stream ≠ returned then
        ⟨-EINVAL, st, [Ioctl.sFmt], none⟩
      else
        match SetupBuffers d { st with format := some returned } with
        | ⟨r, st2, ios⟩ =>
          if r ≠ 0 then ⟨r, st2, Ioctl.sFmt :: ios, none⟩
          else ⟨0, st2, Ioctl.sFmt :: ios, some st2.maxBuffers⟩
  else ⟨-ENODEV, st, [], none⟩

/-- `V4L2Wrapper::EnqueueBuffer` (part_002 lines 333-372). -/
def EnqueueBuffer (d : Driver) (st : WrapperState) : OpResult :=
  match st.format with
  | none => ⟨-ENODEV, st, []⟩
  | some _ =>
    if st.connected then
      if !d.querybuf then ⟨-ENODEV, st, [Ioctl.querybuf]⟩
      else if d.grallocLock ≠ 0 then ⟨d.grallocLock, st, [Ioctl.querybuf]⟩
      else if !d.qbuf then ⟨-ENODEV, st, [Ioctl.querybuf, Ioctl.qbuf]⟩
      else ⟨0, st, [Ioctl.querybuf, Ioctl.qbuf]⟩
    else ⟨-ENODEV, st, []⟩

/-- `V4L2Wrapper::DequeueBuffer` (part_002 lines 374-398). -/
def DequeueBuffer (d : Driver) (st : WrapperState) : OpResult :=
  match st.format with
  | none => ⟨-ENODEV, st, []⟩
  | some _ =>
    if st.connected then
      if !d.dqbuf then ⟨-ENODEV, st, [Ioctl.dqbuf]⟩
      else if d.grallocUnlock ≠ 0 then ⟨d.grallocUnlock, st, [Ioctl.dqbuf]⟩
      else ⟨0, st, [Ioctl.dqbuf]⟩
    else ⟨-ENODEV, st, []⟩

/-- `V4L2Wrapper::Disconnect` (part_002 lines 91-100): closes the fd and
clears the cached format and buffer count. -/
def Disconnect (st : WrapperState) : WrapperState :=
  { connected := false, format := none, maxBuffers := 0,
    extendedQuerySupported := st.extendedQuerySupported }

/-- Invariant tying the cached format to the connection: a disconnected
wrapper holds no cached format.  A fresh wrapper satisfies it (`format_`
is a null `unique_ptr`), `Disconnect` re-establishes it, and no operation
installs a format while disconnected. -/
def WrapperState.Inv (st : WrapperState) : Prop :=
  st.connected = false → st.format = none

theorem setupBuffers_preserves (d : Driver) (st : WrapperState) :
    (SetupBuffers d st).st.connected = st.connected ∧
    (SetupBuffers d st).st.format = st.format := by
  unfold SetupBuffers
  cases h : st.format with
  | none => simp [h]
  | some f =>
    by_cases hc : st.connected
    · cases d.reqbufs with
      | error e => simp [hc, h]
      | ok granted =>
        by_cases hg : d.grallocUnlockAll < 0
        · simp [hc, hg, h]
        · by_cases hl : granted < 1 <;> simp [hc, hg, hl, h]
    · simp [hc, h]

theorem setFormat_connected (d : Driver) (st : WrapperState)
    (stream : StreamParams) :
    (SetFormat d st stream).st.connected = st.connected := by
  unfold SetFormat
  split
  · rfl
  split
  · rfl
  split
  · cases d.sFmt (StreamFormat.ofStream stream) with
    | error e => rfl
    | ok returned =>
      simp only []
      split
      · rfl
      · split <;> exact (setupBuffers_preserves d _).1
  · rfl

theorem setFormat_disconnected_noop (d : Driver) (st : WrapperState)
    (stream : StreamParams) (h : st.connected = false) :
    (SetFormat d st stream).st = st := by
  unfold SetFormat
  split
  · rfl
  split
  · rfl
  split
  · next hc => rw [h] at hc; exact absurd hc (by decide)
  · rfl

theorem setFormat_preserves_inv (d : Driver) (st : WrapperState)
    (stream : StreamParams) (h : st.Inv) : (SetFormat d st stream).st.Inv := by
  intro hdisc
  rw [setFormat_connected] at hdisc
  rw [setFormat_disconnected_noop d st stream hdisc]
  exact h hdisc

/-- A driver whose every response is an error; operations on a disconnected
wrapper never consult it, so any concrete instance suffices there. -/
def errDriver : Driver :=
  { streamon := false
    streamoff := false
    queryExtCtrl := fun _ => Except.error EIO
    queryctrl := fun _ => Except.error EIO
    gCtrl := fun _ => none
    sCtrl := fun _ _ => none
    sFmt := fun _ => Except.error EIO
    reqbufs := Except.error EIO
    querybuf := false
    qbuf := false
    dqbuf := false
    grallocLock := -EINVAL
    grallocUnlock := -EINVAL
    grallocUnlockAll := -EINVAL }

/-- A driver that accepts everything: S_FMT returns exactly the requested
format, REQBUFS grants 4 buffers, all other ioctls succeed. -/
def okDriver : Driver :=
  { streamon := true
    streamoff := true
    queryExtCtrl := fun _ => Except.error ENOTTY
    queryctrl := fun _ => Except.ok ⟨0, V4L2_CTRL_TYPE_INTEGER, 0, 100, 1, 50, 0⟩
    gCtrl := fun _ => some 0
    sCtrl := fun _ v => some v
    sFmt := fun f => Except.ok f
    reqbufs := Except.ok 4
    querybuf := true
    qbuf := true
    dqbuf := true
    grallocLock := 0
    grallocUnlock := 0
    grallocUnlockAll := 0 }

/-- A disconnected wrapper state (fresh, or after `Disconnect`). -/
def wstDisconnected : WrapperState :=
  { connected := false, format := none, maxBuffers := 0,
    extendedQuerySupported := false }

/-- C3: in the `VIDIOC_QUERYCTRL` fallback of `QueryControl`, a
`V4L2_CTRL_TYPE_BITMASK` control widens `maximum` and `default_value` from
32 to 64 bits by zero-extension: the 64-bit result is the nonnegative
reinterpretation of the 32-bit two's-complement pattern (adding `2^32` to
negative values), never the sign-extension; a non-bitmask control copies
both fields with the ordinary sign-preserving conversion.  In particular
for the 32-bit patterns `0xFFFFFFFF` (signed value -1) and `0x80000000`
(signed value -2^31) the widened results are `0x00000000FFFFFFFF` and
`0x0000000080000000`. -/
theorem queryControl_bitmask_zero_extension (q : V4l2Queryctrl)
    (hmax : -2 ^ 31 ≤ q.maximum ∧ q.maximum < 2 ^ 31)
    (hdef : -2 ^ 31 ≤ q.default_value ∧ q.default_value < 2 ^ 31) :
    (q.ctype = V4L2_CTRL_TYPE_BITMASK →
      (queryctrlToExtended q).maximum =
        (if q.maximum < 0 then q.maximum + 2 ^ 32 else q.maximum) ∧
      0 ≤ (queryctrlToExtended q).maximum ∧
      (queryctrlToExtended q).default_value =
        (if q.default_value < 0 then q.default_value + 2 ^ 32
         else q.default_value) ∧
      0 ≤ (queryctrlToExtended q).default_value) ∧
    (q.ctype ≠ V4L2_CTRL_TYPE_BITMASK →
      (queryctrlToExtended q).maximum = q.maximum ∧
      (queryctrlToExtended q).default_value = q.default_value) ∧
    (queryctrlToExtended
        ⟨1, V4L2_CTRL_TYPE_BITMASK, 0, -1, 1, -(2 ^ 31), 0⟩).maximum =
      4294967295 ∧
    (queryctrlToExtended
        ⟨1, V4L2_CTRL_TYPE_BITMASK, 0, -1, 1, -(2 ^ 31), 0⟩).default_value =
      2147483648 := by
  refine ⟨fun hb => ?_, fun hb => ?_, by decide, by decide⟩
  · simp [queryctrlToExtended, toUInt32, hb]
    refine ⟨?_, ?_, ?_, ?_⟩
    · split_ifs <;> omega
    · omega
    · split_ifs <;> omega
    · omega
  · simp [queryctrlToExtended, toUInt32, hb]

/-- Witness for `queryControl_bitmask_zero_extension` at the concrete
S4 inputs (bitmask control, maximum pattern 0xFFFFFFFF, default pattern
0x80000000). -/
theorem queryControl_bitmask_zero_extension_witness :
    (queryctrlToExtended
        ⟨1, V4L2_CTRL_TYPE_BITMASK, 0, -1, 1, -(2 ^ 31), 0⟩).maximum =
      4294967295 := by
  have h := queryControl_bitmask_zero_extension
    ⟨1, V4L2_CTRL_TYPE_BITMASK, 0, -1, 1, -(2 ^ 31), 0⟩
    (by constructor <;> decide) (by constructor <;> decide)
  exact h.2.2.1

/-- Counterexample to C4 as stated: on a disconnected wrapper (whose
cached format is necessarily absent, see `Disconnect` and
`setFormat_preserves_inv`), `StreamOn` fails with `-EINVAL` from the
missing-format check, not with `-ENODEV`. -/
theorem streamOn_disconnected_einval_counterexample :
    (StreamOn errDriver wstDisconnected).ret = -EINVAL ∧
    (StreamOn errDriver wstDisconnected).ret ≠ -ENODEV := by
  constructor <;> decide

/-- C4 (amended): on a disconnected wrapper (`device_fd` not open, hence
no cached format), every device-requiring operation fails without
attempting any ioctl; `StreamOff`, `QueryControl`, `GetControl`,
`SetControl`, `SetFormat` (for a non-input stream), `SetupBuffers`,
`EnqueueBuffer` and `DequeueBuffer` return `-ENODEV`, while `StreamOn`
returns `-EINVAL` because its missing-format check precedes the
connection check. -/
theorem disconnected_ops_amended (d : Driver) (st : WrapperState)
    (ambientErrno : Int) (cid : Nat) (desired : Int) (stream : StreamParams)
    (hdisc : st.connected = false) (hfmt : st.format = none)
    (hin : stream.isInputType = false) :
    StreamOn d st = ⟨-EINVAL, st, []⟩ ∧
    StreamOff d st = ⟨-ENODEV, st, []⟩ ∧
    QueryControl d st ambientErrno cid = (-ENODEV, none, []) ∧
    GetControl d st cid = (-ENODEV, none, []) ∧
    SetControl d st cid desired = (-ENODEV, none, []) ∧
    SetFormat d st stream = ⟨-ENODEV, st, [], none⟩ ∧
    SetupBuffers d st = ⟨-ENODEV, st, []⟩ ∧
    EnqueueBuffer d st = ⟨-ENODEV, st, []⟩ ∧
    DequeueBuffer d st = ⟨-ENODEV, st, []⟩ := by
  refine ⟨?_, ?_, ?_, ?_, ?_, ?_, ?_, ?_, ?_⟩
  · unfold StreamOn; rw [hfmt]
  · unfold StreamOff; rw [hfmt]
  · unfold QueryControl queryControlFallback
    by_cases he : st.extendedQuerySupported <;>
      by_cases ha : ambientErrno ≠ ENOTTY <;>
      simp [he, ha, hdisc]
  · unfold GetControl; simp [hdisc]
  · unfold SetControl; simp [hdisc]
  · unfold SetFormat; simp [hin, hfmt, hdisc]
  · unfold SetupBuffers; rw [hfmt]
  · unfold EnqueueBuffer; rw [hfmt]
  · unfold DequeueBuffer; rw [hfmt]

/-- Witness for `disconnected_ops_amended` at a concrete disconnected
state, driver, control id and output stream. -/
theorem disconnected_ops_amended_witness :
    GetControl errDriver wstDisconnected 5 = (-ENODEV, none, []) ∧
    DequeueBuffer errDriver wstDisconnected = ⟨-ENODEV, wstDisconnected, []⟩ := by
  have h := disconnected_ops_amended errDriver wstDisconnected 0 5 7
    ⟨HAL_PIXEL_FORMAT_YCbCr_420_888, 640, 480, StreamType.output, 0⟩
    (by decide) (by decide) (by decide)
  exact ⟨h.2.2.2.1, h.2.2.2.2.2.2.2.2⟩

/-- The "already in correct format" skip branch of `SetFormat`: when the
cached format already equals the one determined by the (non-input) stream,
the call returns 0 with no ioctl and no state change. -/
theorem setFormat_skip (d : Driver) (st : WrapperState)
    (stream : StreamParams) (hin : stream.isInputType = false)
    (hf : st.format = some (StreamFormat.ofStream stream)) :
    SetFormat d st stream = ⟨0, st, [], none⟩ := by
  unfold SetFormat
  simp [hin, hf]

/-- A `SetFormat` call that returns 0 leaves the cached format equal to
the format determined by the requested stream. -/
theorem setFormat_ret_zero_format (d : Driver) (st : WrapperState)
    (stream : StreamParams) :
    (SetFormat d st stream).ret = 0 →
    (SetFormat d st stream).st.format = some (StreamFormat.ofStream stream) := by
  unfold SetFormat
  split
  · intro h; norm_num [EINVAL] at h
  split
  · next hf => intro _; exact hf
  split
  · cases d.sFmt (StreamFormat.ofStream stream) with
    | error e => intro h; norm_num [ENODEV] at h
    | ok returned =>
      simp only []
      split
      · intro h; norm_num [EINVAL] at h
      · next hne =>
        split
        · next hr => intro h; exact absurd h hr
        · intro _
          have h3 := (setupBuffers_preserves d
            { st with format := some returned }).2
          rw [h3]
          push_neg at hne
          rw [hne]
  · intro h; norm_num [ENODEV] at h

/-- C5: `SetFormat` is idempotent with respect to ioctls.  When the
requested (non-input) stream determines the wrapper's cached format the
call returns 0 immediately, issues no ioctl (neither `VIDIOC_S_FMT` nor
`VIDIOC_REQBUFS`) and leaves the whole state, in particular the cached
format and `max_buffers_`, unchanged; consequently after any successful
`SetFormat` a second call with equal stream parameters issues no ioctl
and leaves `max_buffers_` unchanged, so two equal calls issue the
format/buffer ioctls at most once. -/
theorem setFormat_idempotent (d d2 : Driver) (st : WrapperState)
    (stream : StreamParams) (hin : stream.isInputType = false) :
    (st.format = some (StreamFormat.ofStream stream) →
      SetFormat d st stream = ⟨0, st, [], none⟩) ∧
    ((SetFormat d st stream).ret = 0 →
      SetFormat d2 (SetFormat d st stream).st stream =
        ⟨0, (SetFormat d st stream).st, [], none⟩) := by
  constructor
  · intro hf
    exact setFormat_skip d st stream hin hf
  · intro hret
    exact setFormat_skip d2 (SetFormat d st stream).st stream hin
      (setFormat_ret_zero_format d st stream hret)

/-- Witness for `setFormat_idempotent`: a 640x480 YCbCr output stream set
twice; the first call issues S_FMT and REQBUFS, the second call performs
no ioctl and returns the state of the first call unchanged. -/
theorem setFormat_idempotent_witness :
    SetFormat okDriver
        (SetFormat okDriver
          ⟨true, none, 0, true⟩
          ⟨HAL_PIXEL_FORMAT_YCbCr_420_888, 640, 480, StreamType.output, 0⟩).st
        ⟨HAL_PIXEL_FORMAT_YCbCr_420_888, 640, 480, StreamType.output, 0⟩ =
      ⟨0,
        (SetFormat okDriver ⟨true, none, 0, true⟩
          ⟨HAL_PIXEL_FORMAT_YCbCr_420_888, 640, 480, StreamType.output, 0⟩).st,
        [], none⟩ :=
  (setFormat_idempotent okDriver okDriver ⟨true, none, 0, true⟩
    ⟨HAL_PIXEL_FORMAT_YCbCr_420_888, 640, 480, StreamType.output, 0⟩
    (by decide)).2 (by decide)

/-! ### Camera metadata blocks and request completion (camera.cpp)

A metadata block is a list of (tag, values) entries; within one block a
tag appears at most once (data-model invariant).  `SingleTagValue`
(metadata_common.h, declared but not under src/) is modelled from the
spec and its uses: it extracts the value of a tag that is present with
exactly one value, and fails otherwise (absent tag included). -/

abbrev CameraMetadata := List (Nat × List Int)

/-- Extraction of a single-valued tag entry; `none` models the nonzero
error return of `SingleTagValue` (tag absent, or entry count not 1). -/
def singleTagValue (md : CameraMetadata) (tag : Nat) : Option Int :=
  match md.find? (fun e => e.1 = tag) with
  | some (_, [v]) => some v
  | _ => none

structure CaptureRequest where
  frame_number : Nat
  settings : CameraMetadata
deriving DecidableEq, Repr

/-- Framework callbacks observable from `Camera::completeRequest`:
`notify` messages (shutter or error) and `process_capture_result` calls. -/
inductive Callback where
  | notifyShutter (frameNumber : Nat) (timestamp : Int)
  | notifyError (frameNumber : Nat) (errorCode : Int)
  | captureResult (frameNumber : Nat)
deriving DecidableEq, Repr

/-- `Camera::sendResult` (camera.cpp lines 537-550): a single
`process_capture_result` callback. -/
def sendResult (req : CaptureRequest) : List Callback :=
  [Callback.captureResult req.frame_number]

/-- `Camera::completeRequestWithError` (camera.cpp lines 520-535): one
error notify with `CAMERA3_MSG_ERROR_REQUEST` followed by the errored
result. -/
def completeRequestWithError (req : CaptureRequest) : List Callback :=
  Callback.notifyError req.frame_number CAMERA3_MSG_ERROR_REQUEST ::
    sendResult req

/-- `Camera::completeRequest` (camera.cpp lines 450-481): on a device
error take the error path; otherwise read `ANDROID_SENSOR_TIMESTAMP` from
the request settings, taking the error path when that fails, else issue
the shutter notify followed by the result. -/
def completeRequest (req : CaptureRequest) (err : Int) : List Callback :=
  if err ≠ 0 then completeRequestWithError req
  else
    match singleTagValue req.settings ANDROID_SENSOR_TIMESTAMP with
    | none => completeRequestWithError req
    | some ts => Callback.notifyShutter req.frame_number ts :: sendResult req

/-- Discriminator for `notify` callbacks (shutter or error). -/
def Callback.isNotify : Callback → Bool
  | Callback.notifyShutter _ _ => true
  | Callback.notifyError _ _ => true
  | Callback.captureResult _ => false

/-- Discriminator for `process_capture_result` callbacks. -/
def Callback.isResult : Callback → Bool
  | Callback.captureResult _ => true
  | _ => false

/-! ### Stream configuration (camera.cpp Camera::configureStreams and
v4l2_camera.cpp V4L2Camera::isSupportedStreamSet / setupStream) -/

/-- Camera-side state relevant to stream configuration: the active stream
array (`mStreams`, with `mNumStreams` its length) and the settings latch
`mSettingsSet`. -/
structure CameraState where
  mStreams : List StreamParams
  mSettingsSet : Bool
deriving DecidableEq, Repr

/-- One `camera3_stream_t` entry of a stream configuration:
`maxBuffers > 0` marks a stream the framework hands back for reuse, and
`priv` is the existing `Stream` object its `priv` pointer designates
(an index into the current `mStreams`). -/
structure CfgStream where
  params : StreamParams
  maxBuffers : Nat
  priv : Option Nat
deriving DecidableEq, Repr

/-- An entry of the `newStreams` array being built: either an existing
stream being reused (its `mReuse` flag set) or a freshly allocated
`new Stream` (whose `mReuse` flag is false). -/
inductive StreamRef where
  | reused (idx : Nat) (p : StreamParams)
  | fresh (p : StreamParams)
deriving DecidableEq, Repr

def StreamRef.params : StreamRef → StreamParams
  | StreamRef.reused _ p => p
  | StreamRef.fresh p => p

/-- `Camera::reuseStream` (camera.cpp lines 276-287): follow the `priv`
pointer and accept the reuse only when the parameters match
(`Stream::isValidReuseStream`, modelled as parameter equality per the
spec: "Reuses existing streams whose params match"). -/
def reuseStream (old : List StreamParams) (c : CfgStream) : Option StreamRef :=
  match c.priv with
  | some i =>
    match old[i]? with
    | some p => if p = c.params then some (StreamRef.reused i p) else none
    | none => none
  | none => none

/-- The stream-building loop of `Camera::configureStreams` (camera.cpp
lines 214-230).  Returns the prefix of `newStreams` built before a
failure, and whether the whole loop succeeded. -/
def buildNewStreams (old : List StreamParams) :
    List CfgStream → List StreamRef × Bool
  | [] => ([], true)
  | c :: rest =>
    let r? : Option StreamRef :=
      if c.maxBuffers > 0 then reuseStream old c
      else some (StreamRef.fresh c.params)
    match r? with
    | none => ([], false)
    | some r =>
      let tail := buildNewStreams old rest
      (r :: tail.1, tail.2)

/-- The freshly allocated (non-reused) streams of a configuration
attempt: exactly the entries the error path of `configureStreams`
destroys (`destroyStreams` deletes entries whose `mReuse` flag is
false). -/
def newlyAllocatedStreams (old : List StreamParams) (cfg : List CfgStream) :
    List StreamParams :=
  (buildNewStreams old cfg).1.filterMap fun r =>
    match r with
    | StreamRef.fresh p => some p
    | StreamRef.reused _ _ => none

inductive FormatCategory where
  | unknown
  | raw
  | stalling
  | nonStalling
deriving DecidableEq, Repr

/-- Modelled from the spec: stream_format.cpp (`StreamFormat::Category`)
is not under src/.  Per the spec the stream set check counts
Bayer/YUV/JPEG/Encoder streams: JPEG (BLOB) is the stalling category,
YCbCr_420_888 and IMPLEMENTATION_DEFINED are non-stalling, RAW16 is RAW,
anything else is unknown. -/
def formatCategory (halFormat : Int) : FormatCategory :=
  if halFormat = HAL_PIXEL_FORMAT_BLOB then FormatCategory.stalling
  else if halFormat = HAL_PIXEL_FORMAT_YCbCr_420_888 ∨
      halFormat = HAL_PIXEL_FORMAT_IMPLEMENTATION_DEFINED then
    FormatCategory.nonStalling
  else if halFormat = HAL_PIXEL_FORMAT_RAW16 then FormatCategory.raw
  else FormatCategory.unknown

/-- The per-category counting loop of `V4L2Camera::isSupportedStreamSet`
(v4l2_camera.cpp lines 1264-1293); `none` models the early `false` return
on an unknown format.  Note the source's missing `break` after the RAW
case: a RAW output stream increments both `num_raw` and `num_stalling`. -/
def countStreamTypes : List StreamParams → Option (Int × Int × Int × Int)
  | [] => some (0, 0, 0, 0)
  | s :: rest =>
    match countStreamTypes rest with
    | none => none
    | some (ni, nr, nst, nns) =>
      let ni := if s.isInputType then ni + 1 else ni
      if s.isOutputType then
        match formatCategory s.format with
        | FormatCategory.raw => some (ni, nr + 1, nst + 1, nns)
        | FormatCategory.stalling => some (ni, nr, nst + 1, nns)
        | FormatCategory.nonStalling => some (ni, nr, nst, nns + 1)
        | FormatCategory.unknown => none
      else some (ni, nr, nst, nns)

/-- Stream count limits fixed by `V4L2Camera::initCharacteristics`
(v4l2_camera.cpp lines 1418-1424). -/
def mMaxRawOutputStreams : Int := 0
def mMaxStallingOutputStreams : Int := 1
def mMaxNonStallingOutputStreams : Int := 2
def mMaxInputStreams : Int := 0

/-- `V4L2Camera::isSupportedStreamSet` (v4l2_camera.cpp lines 1249-1330):
normal mode only, per-category count limits, and — the single-stream V4L2
limitation — all streams must share format, width and height. -/
def isSupportedStreamSet (ss : List StreamParams) (mode : Nat) : Bool :=
  if mode ≠ CAMERA3_STREAM_CONFIGURATION_NORMAL_MODE then false
  else if ss.length < 1 then false
  else
    match countStreamTypes ss with
    | none => false
    | some (ni, nr, nst, nns) =>
      if ni > mMaxInputStreams ∨ nr > mMaxRawOutputStreams ∨
          nst > mMaxStallingOutputStreams ∨
          nns > mMaxNonStallingOutputStreams then false
      else
        match ss with
        | [] => false
        | s0 :: rest =>
          rest.all fun s =>
            s.format = s0.format ∧ s.width = s0.width ∧ s.height = s0.height

/-- `Camera::isValidStreamSet` (camera.cpp lines 289-323): at least one
output, at most one input, then the device-specific check. -/
def isValidStreamSet (ss : List StreamParams) (mode : Nat) : Bool :=
  if ss.length = 0 then false
  else if ss.countP (fun s => s.isOutputType) < 1 then false
  else if ss.countP (fun s => s.isInputType) > 1 then false
  else isSupportedStreamSet ss mode

/-- `V4L2Camera::setupStream` (v4l2_camera.cpp lines 1332-1359): reject
non-zero rotation, set the device format, then sanity-check the maximum
buffer count.  When `SetFormat` takes its skip path it does not write the
out-parameter, so the check reads the caller's uninitialized
`max_buffers` variable; that indeterminate value is the `uninit`
parameter. -/
def setupStream (d : Driver) (wst : WrapperState) (uninit : Nat)
    (s : StreamParams) : Int × WrapperState :=
  if s.rotation ≠ 0 then (-EINVAL, wst)
  else
    let r := SetFormat d wst s
    if r.ret ≠ 0 then (r.ret, r.st)
    else if r.resultMaxBuffers.getD uninit < 1 then (-ENODEV, r.st)
    else (0, r.st)

/-- `Camera::setupStreams` (camera.cpp lines 325-351): set up each stream
in turn, stopping at the first failure. -/
def setupStreams (d : Driver) (wst : WrapperState) (uninit : Nat) :
    List StreamParams → Int × WrapperState
  | [] => (0, wst)
  | s :: rest =>
    let r := setupStream d wst uninit s
    if r.1 ≠ 0 then r else setupStreams d r.2 uninit rest

/-- Outcome of `Camera::configureStreams`: return code, camera state,
wrapper state, and the list of `Stream` objects destroyed by the call. -/
structure ConfigOutcome where
  ret : Int
  cam : CameraState
  wst : WrapperState
  destroyed : List StreamParams
deriving DecidableEq, Repr

/-- `Camera::configureStreams` (camera.cpp lines 184-262).  The settings
latch is cleared unconditionally at entry (line 191), before the null and
empty checks.  On any failure the prior `mStreams`/`mNumStreams` survive
and `destroyStreams` deletes only the non-reused entries of the new
array; on success the old non-reused streams are destroyed and the new
array is installed. -/
def configureStreams (d : Driver) (uninit : Nat) (cam : CameraState)
    (wst : WrapperState) (cfg : Option (List CfgStream)) (mode : Nat) :
    ConfigOutcome :=
  let cam0 : CameraState := { cam with mSettingsSet := false }
  match cfg with
  | none => ⟨-EINVAL, cam0, wst, []⟩
  | some streams =>
    if streams.length = 0 then ⟨-EINVAL, cam0, wst, []⟩
    else
      let build := buildNewStreams cam.mStreams streams
      let newParams := build.1.map StreamRef.params
      let freshOnes := newlyAllocatedStreams cam.mStreams streams
      if !build.2 then ⟨-EINVAL, cam0, wst, freshOnes⟩
      else if !isValidStreamSet newParams mode then
        ⟨-EINVAL, cam0, wst, freshOnes⟩
      else
        let setup := setupStreams d wst uninit newParams
        if setup.1 ≠ 0 then ⟨setup.1, cam0, setup.2, freshOnes⟩
        else
          let reusedIdx : List Nat := build.1.filterMap fun r =>
            match r with
            | StreamRef.reused i _ => some i
            | StreamRef.fresh _ => none
          let destroyedOld := (List.range cam.mStreams.length).filterMap
            fun i => if reusedIdx.contains i then none else cam.mStreams[i]?
          ⟨0, { mStreams := newParams, mSettingsSet := false }, setup.2,
            destroyedOld⟩

/-! ### Request admission (camera.cpp Camera::processCaptureRequest) -/

/-- The fields of a `camera3_capture_request_t` that the admission path of
`processCaptureRequest` inspects. -/
structure PcrRequest where
  frameNumber : Nat
  settings : CameraMetadata
  outputBuffers : Nat
deriving DecidableEq, Repr

/-- `Camera::processCaptureRequest` admission logic (camera.cpp lines
386-448).  `validReq` stands for the device-specific
`isValidRequest` virtual (not under src/) and `preprocessRes` for the
first failing `preprocessCaptureBuffer` result (0 when all fences were
waited on successfully).  Note the latch is set to true after request
validation but before the output-buffer count check. -/
def processCaptureRequest (validReq : Bool) (preprocessRes : Int)
    (cam : CameraState) (req : Option PcrRequest) : Int × CameraState :=
  match req with
  | none => (-EINVAL, cam)
  | some r =>
    if r.settings.isEmpty && !cam.mSettingsSet then (-EINVAL, cam)
    else if !validReq then (-EINVAL, cam)
    else
      let cam1 : CameraState := { cam with mSettingsSet := true }
      if r.outputBuffers = 0 then (-EINVAL, cam1)
      else if preprocessRes ≠ 0 then (-ENODEV, cam1)
      else (0, cam1)

/-! ### Claim C1: exactly one notify and one result per completed request -/

/-- C1: for every request completed through `Camera::completeRequest`,
exactly one `notify` and exactly one `process_capture_result` callback
are issued: on success a single shutter notify carrying the timestamp
read from the request settings via `ANDROID_SENSOR_TIMESTAMP`, followed
by a single result; on any failure (a nonzero device error, or an absent
or malformed `SENSOR_TIMESTAMP` entry) a single error notify with
`CAMERA3_MSG_ERROR_REQUEST` followed by a single result.  No path issues
zero or two of either callback. -/
theorem completeRequest_single_callbacks (req : CaptureRequest) (err : Int) :
    (completeRequest req err).countP Callback.isNotify = 1 ∧
    (completeRequest req err).countP Callback.isResult = 1 ∧
    (∀ ts : Int, err = 0 →
      singleTagValue req.settings ANDROID_SENSOR_TIMESTAMP = some ts →
      completeRequest req err =
        [Callback.notifyShutter req.frame_number ts,
         Callback.captureResult req.frame_number]) ∧
    (err ≠ 0 ∨
        singleTagValue req.settings ANDROID_SENSOR_TIMESTAMP = none →
      completeRequest req err =
        [Callback.notifyError req.frame_number CAMERA3_MSG_ERROR_REQUEST,
         Callback.captureResult req.frame_number]) := by
  by_cases herr : err = 0
  · cases hts : singleTagValue req.settings ANDROID_SENSOR_TIMESTAMP with
    | none =>
      refine ⟨?_, ?_, ?_, ?_⟩ <;>
        simp [completeRequest, completeRequestWithError, sendResult, herr,
          hts, Callback.isNotify, Callback.isResult]
    | some ts0 =>
      refine ⟨?_, ?_, ?_, ?_⟩ <;>
        simp [completeRequest, completeRequestWithError, sendResult, herr,
          hts, Callback.isNotify, Callback.isResult]
  · refine ⟨?_, ?_, ?_, ?_⟩ <;>
      simp [completeRequest, completeRequestWithError, sendResult, herr,
        Callback.isNotify, Callback.isResult]

/-- Witness for `completeRequest_single_callbacks`: a request whose
settings carry `SENSOR_TIMESTAMP = 123456` completes with exactly the
shutter notify and the result, and a request with empty settings
completes with exactly the error notify and the result. -/
theorem completeRequest_single_callbacks_witness :
    completeRequest ⟨7, [(ANDROID_SENSOR_TIMESTAMP, [123456])]⟩ 0 =
      [Callback.notifyShutter 7 123456, Callback.captureResult 7] ∧
    completeRequest ⟨8, []⟩ 0 =
      [Callback.notifyError 8 CAMERA3_MSG_ERROR_REQUEST,
       Callback.captureResult 8] :=
  ⟨(completeRequest_single_callbacks
      ⟨7, [(ANDROID_SENSOR_TIMESTAMP, [123456])]⟩ 0).2.2.1 123456 rfl
      (by decide),
   (completeRequest_single_callbacks ⟨8, []⟩ 0).2.2.2 (Or.inr (by decide))⟩

/-! ### Claim C2 and C10: configureStreams failure behaviour and the
settings latch -/

theorem setupBuffers_ret_cases (d : Driver) (st : WrapperState) :
    (SetupBuffers d st).ret = 0 ∨ (SetupBuffers d st).ret < 0 := by
  unfold SetupBuffers
  split
  · right; norm_num [ENODEV]
  · split
    · split
      · right; norm_num [ENODEV]
      · split
        · next hg => right; exact hg
        · split
          · right; norm_num [ENODEV]
          · left; rfl
    · right; norm_num [ENODEV]

theorem setFormat_ret_cases (d : Driver) (st : WrapperState)
    (stream : StreamParams) :
    (SetFormat d st stream).ret = 0 ∨ (SetFormat d st stream).ret < 0 := by
  unfold SetFormat
  split
  · right; norm_num [EINVAL]
  split
  · left; rfl
  split
  · cases d.sFmt (StreamFormat.ofStream stream) with
    | error e => right; norm_num [ENODEV]
    | ok returned =>
      simp only []
      split
      · right; norm_num [EINVAL]
      · split
        · next hr =>
          rcases setupBuffers_ret_cases d { st with format := some returned }
            with h0 | hneg
          · exact absurd h0 hr
          · right; exact hneg
        · left; rfl
  · right; norm_num [ENODEV]

theorem setupStream_ret_cases (d : Driver) (wst : WrapperState)
    (uninit : Nat) (s : StreamParams) :
    (setupStream d wst uninit s).1 = 0 ∨ (setupStream d wst uninit s).1 < 0 := by
  unfold setupStream
  split
  · right; norm_num [EINVAL]
  · simp only []
    split
    · next hr =>
      rcases setFormat_ret_cases d wst s with h0 | hneg
      · exact absurd h0 hr
      · right; exact hneg
    · split
      · right; norm_num [ENODEV]
      · left; rfl

theorem setupStreams_ret_cases (d : Driver) (uninit : Nat) :
    ∀ (ss : List StreamParams) (wst : WrapperState),
      (setupStreams d wst uninit ss).1 = 0 ∨
      (setupStreams d wst uninit ss).1 < 0 := by
  intro ss
  induction ss with
  | nil => intro wst; left; rfl
  | cons s rest ih =>
    intro wst
    unfold setupStreams
    simp only []
    split
    · next hr =>
      rcases setupStream_ret_cases d wst uninit s with h0 | hneg
      · exact absurd h0 hr
      · right; exact hneg
    · exact ih _

/-- The settings latch is cleared by every path of `configureStreams`
(the assignment happens at entry, before the null check, the validation
and the lock). -/
theorem configureStreams_latch_cleared (d : Driver) (uninit : Nat)
    (cam : CameraState) (wst : WrapperState) (cfg : Option (List CfgStream))
    (mode : Nat) :
    (configureStreams d uninit cam wst cfg mode).cam.mSettingsSet = false := by
  unfold configureStreams
  cases cfg with
  | none => rfl
  | some streams =>
    simp only []
    split
    · rfl
    · split
      · rfl
      · split
        · rfl
        · split
          · rfl
          · rfl

/-- Failure behaviour of `configureStreams`: a nonzero return is
negative, the prior stream array survives, the latch is cleared, and
every destroyed stream is one of the newly allocated (non-reused)
streams of the attempted configuration. -/
theorem configureStreams_failure_helper (d : Driver) (uninit : Nat)
    (cam : CameraState) (wst : WrapperState) (cfg : Option (List CfgStream))
    (mode : Nat)
    (h : (configureStreams d uninit cam wst cfg mode).ret ≠ 0) :
    (configureStreams d uninit cam wst cfg mode).ret < 0 ∧
    (configureStreams d uninit cam wst cfg mode).cam.mStreams =
      cam.mStreams ∧
    (configureStreams d uninit cam wst cfg mode).cam.mSettingsSet = false ∧
    ∀ p ∈ (configureStreams d uninit cam wst cfg mode).destroyed,
      ∃ streams, cfg = some streams ∧
        p ∈ newlyAllocatedStreams cam.mStreams streams := by
  refine ⟨?_, ?_, configureStreams_latch_cleared d uninit cam wst cfg mode, ?_⟩
  · revert h
    unfold configureStreams
    cases cfg with
    | none => intro _; norm_num [EINVAL]
    | some streams =>
      simp only []
      split
      · intro _; norm_num [EINVAL]
      · split
        · intro _; norm_num [EINVAL]
        · split
          · intro _; norm_num [EINVAL]
          · split
            · next hs =>
              intro _
              rcases setupStreams_ret_cases d uninit
                ((buildNewStreams cam.mStreams streams).1.map StreamRef.params)
                wst with h0 | hneg
              · exact absurd h0 hs
              · exact hneg
            · intro h0; exact absurd rfl h0
  · revert h
    unfold configureStreams
    cases cfg with
    | none => intro _; rfl
    | some streams =>
      simp only []
      split
      · intro _; rfl
      · split
        · intro _; rfl
        · split
          · intro _; rfl
          · split
            · intro _; rfl
            · intro h0; exact absurd rfl h0
  · revert h
    unfold configureStreams
    cases cfg with
    | none => intro _; simp
    | some streams =>
      simp only []
      split
      · intro _; simp
      · split
        · intro _
          intro p hp
          exact ⟨streams, rfl, hp⟩
        · split
          · intro _
            intro p hp
            exact ⟨streams, rfl, hp⟩
          · split
            · intro _
              intro p hp
              exact ⟨streams, rfl, hp⟩
            · intro h0; exact absurd rfl h0

/-- Error-code shape of a failing `configureStreams`: the code is
`-EINVAL` except when stream setup produced a more specific error, in
which case that error is returned unchanged. -/
theorem configureStreams_ret_shape (d : Driver) (uninit : Nat)
    (cam : CameraState) (wst : WrapperState) (cfg : Option (List CfgStream))
    (mode : Nat)
    (h : (configureStreams d uninit cam wst cfg mode).ret ≠ 0) :
    (configureStreams d uninit cam wst cfg mode).ret = -EINVAL ∨
    ∃ streams, cfg = some streams ∧
      (configureStreams d uninit cam wst cfg mode).ret =
        (setupStreams d wst uninit
          ((buildNewStreams cam.mStreams streams).1.map
            StreamRef.params)).1 := by
  revert h
  unfold configureStreams
  cases cfg with
  | none => intro _; left; rfl
  | some streams =>
    simp only []
    split
    · intro _; left; rfl
    · split
      · intro _; left; rfl
      · split
        · intro _; left; rfl
        · split
          · intro _; right; exact ⟨streams, rfl, rfl⟩
          · intro h0; exact absurd rfl h0

/-- A 640-width YCbCr output stream parameter set (width as given). -/
def yuvOut (w : Nat) : StreamParams :=
  ⟨HAL_PIXEL_FORMAT_YCbCr_420_888, w, 480, StreamType.output, 0⟩

/-- C2: whenever `configureStreams` fails it returns a negative errno
(`-EINVAL` unless a more specific error came out of stream setup), the
previously active stream set is preserved (`mStreams` and `mNumStreams`
keep their prior values) and only the newly allocated non-reused streams
are destroyed; in particular a configuration of two output streams that
differ only in width fails with `-EINVAL` and leaves the prior stream
set in place. -/
theorem configureStreams_failure_preserves_streams (d : Driver)
    (uninit : Nat) (cam : CameraState) (wst : WrapperState)
    (cfg : Option (List CfgStream)) (mode : Nat)
    (h : (configureStreams d uninit cam wst cfg mode).ret ≠ 0) :
    ((configureStreams d uninit cam wst cfg mode).ret < 0 ∧
     ((configureStreams d uninit cam wst cfg mode).ret = -EINVAL ∨
      ∃ streams, cfg = some streams ∧
        (configureStreams d uninit cam wst cfg mode).ret =
          (setupStreams d wst uninit
            ((buildNewStreams cam.mStreams streams).1.map
              StreamRef.params)).1) ∧
     (configureStreams d uninit cam wst cfg mode).cam.mStreams =
       cam.mStreams ∧
     ∀ p ∈ (configureStreams d uninit cam wst cfg mode).destroyed,
       ∃ streams, cfg = some streams ∧
         p ∈ newlyAllocatedStreams cam.mStreams streams) ∧
    configureStreams errDriver 0 ⟨[yuvOut 320], true⟩ wstDisconnected
        (some [⟨yuvOut 640, 0, none⟩, ⟨yuvOut 1280, 0, none⟩]) 0 =
      ⟨-EINVAL, ⟨[yuvOut 320], false⟩, wstDisconnected,
        [yuvOut 640, yuvOut 1280]⟩ := by
  have hh := configureStreams_failure_helper d uninit cam wst cfg mode h
  have hs := configureStreams_ret_shape d uninit cam wst cfg mode h
  exact ⟨⟨hh.1, hs, hh.2.1, hh.2.2.2⟩, by decide⟩

/-- Witness for `configureStreams_failure_preserves_streams`: the
two-width configuration attempt itself (concrete camera holding one
320-width stream, two new output streams of widths 640 and 1280). -/
theorem configureStreams_failure_preserves_streams_witness :
    (configureStreams errDriver 0 ⟨[yuvOut 320], true⟩ wstDisconnected
        (some [⟨yuvOut 640, 0, none⟩, ⟨yuvOut 1280, 0, none⟩]) 0).ret < 0 ∧
    (configureStreams errDriver 0 ⟨[yuvOut 320], true⟩ wstDisconnected
        (some [⟨yuvOut 640, 0, none⟩, ⟨yuvOut 1280, 0, none⟩]) 0).cam.mStreams =
      [yuvOut 320] := by
  have hh := configureStreams_failure_preserves_streams errDriver 0
    ⟨[yuvOut 320], true⟩ wstDisconnected
    (some [⟨yuvOut 640, 0, none⟩, ⟨yuvOut 1280, 0, none⟩]) 0 (by decide)
  exact ⟨hh.1.1, hh.1.2.2.1⟩

/-- C10: `configureStreams` clears the settings latch unconditionally at
entry, before any validation; hence even a failing call (null or invalid
configuration) leaves `mSettingsSet = false` while the prior streams
survive, and a subsequent `processCaptureRequest` carrying empty settings
is rejected with `-EINVAL`. -/
theorem configureStreams_clears_settings_latch (d : Driver) (uninit : Nat)
    (cam : CameraState) (wst : WrapperState) (cfg : Option (List CfgStream))
    (mode : Nat) (validReq : Bool) (preprocessRes : Int) (r : PcrRequest)
    (hr : r.settings = []) :
    (configureStreams d uninit cam wst cfg mode).cam.mSettingsSet = false ∧
    processCaptureRequest validReq preprocessRes
        (configureStreams d uninit cam wst cfg mode).cam (some r) =
      (-EINVAL, (configureStreams d uninit cam wst cfg mode).cam) ∧
    ((configureStreams d uninit cam wst cfg mode).ret ≠ 0 →
      (configureStreams d uninit cam wst cfg mode).cam.mStreams =
        cam.mStreams) := by
  have hl := configureStreams_latch_cleared d uninit cam wst cfg mode
  refine ⟨hl, ?_, ?_⟩
  · unfold processCaptureRequest
    simp [hr, hl]
  · intro hfail
    exact (configureStreams_failure_helper d uninit cam wst cfg mode hfail).2.1

/-- Witness for `configureStreams_clears_settings_latch`: a null
configuration call on a camera whose latch was set; the latch is cleared
and the empty-settings request is rejected. -/
theorem configureStreams_clears_settings_latch_witness :
    (configureStreams errDriver 0 ⟨[yuvOut 320], true⟩ wstDisconnected
        none 0).cam.mSettingsSet = false ∧
    processCaptureRequest true 0
        (configureStreams errDriver 0 ⟨[yuvOut 320], true⟩ wstDisconnected
          none 0).cam (some ⟨3, [], 1⟩) =
      (-EINVAL,
        (configureStreams errDriver 0 ⟨[yuvOut 320], true⟩ wstDisconnected
          none 0).cam) := by
  have hh := configureStreams_clears_settings_latch errDriver 0
    ⟨[yuvOut 320], true⟩ wstDisconnected none 0 true 0 ⟨3, [], 1⟩ rfl
  exact ⟨hh.1, hh.2.1⟩

/-! ### Claim C8: MenuControlOptions defaults

Modelled from the spec: menu_control_options.h is not under src/ (only
its unit tests, part_001).  A menu control holds an explicit list of
acceptable values; `IsSupported` is membership; the default for a
template is implementation-defined per template id but must be a
supported option, and with an empty option set every template returns
`NoDevice`.  The implementation-defined choice is modelled as the first
option. -/

def MenuIsSupported (options : List Int) (v : Int) : Bool :=
  options.contains v

/-- Modelled from the spec: `MenuControlOptions::DefaultValueForTemplate`
returns `-ENODEV` and no value when the option list is empty, else 0 and
an implementation-defined supported option (modelled as the head). -/
def MenuDefaultValueForTemplate (options : List Int) (tid : Int) :
    Int × Option Int :=
  match options with
  | [] => (-ENODEV, none)
  | v :: _ => (0, some v)

/-- C8: for the option list {1, 10, 19, 30} and every template id in
[1, CAMERA3_TEMPLATE_COUNT), `DefaultValueForTemplate` returns 0 and
stores a supported option; for the empty option list every such template
id returns `-ENODEV`. -/
theorem menuControlOptions_defaults (tid : Int)
    (htid : 1 ≤ tid ∧ tid < CAMERA3_TEMPLATE_COUNT) :
    ((MenuDefaultValueForTemplate [1, 10, 19, 30] tid).1 = 0 ∧
     ∃ v, (MenuDefaultValueForTemplate [1, 10, 19, 30] tid).2 = some v ∧
       MenuIsSupported [1, 10, 19, 30] v = true) ∧
    (MenuDefaultValueForTemplate [] tid).1 = -ENODEV := by
  refine ⟨⟨rfl, 1, rfl, by decide⟩, rfl⟩

/-- Witness for `menuControlOptions_defaults` at template id 1. -/
theorem menuControlOptions_defaults_witness :
    (MenuDefaultValueForTemplate [1, 10, 19, 30] 1).1 = 0 ∧
    (MenuDefaultValueForTemplate [] 1).1 = -ENODEV :=
  ⟨(menuControlOptions_defaults 1 (by decide)).1.1,
   (menuControlOptions_defaults 1 (by decide)).2⟩

/-! ### Claim C6: Control::SetRequestValues

Modelled from the spec: control.h/control.cpp are not under src/ (only
the unit tests in part_003).  Per the spec, `supports_request_values`
holds iff the request either omits the control's tag or carries it with
the expected arity (one value) and a value the options accept;
`set_request_values` validates and then writes through the delegate,
failing with `InvalidArgument` when unsupported and propagating the
delegate's error when the write fails.  The behaviour below matches
every `ControlTest` expectation in part_003 (SetRequest,
SetRequestSettingFail, SetRequestValidationFail, SetRequestInvalidNumber,
SetRequestEmpty). -/

def ControlSupportsRequestValues (options : List Int)
    (entry : Option (List Int)) : Bool :=
  match entry with
  | none => true
  | some vs => vs.length = 1 && options.contains (vs.headD 0)

/-- Modelled from the spec: `Control::SetRequestValues`.  `dset v` is the
delegate's `SetValue(v)` return code, `stored` the delegate's current
value; the result is (return code, new stored value, whether SetValue
was called). -/
def ControlSetRequestValues (dset : Int → Int) (options : List Int)
    (entry : Option (List Int)) (stored : Int) : Int × Int × Bool :=
  match entry with
  | none => (0, stored, false)
  | some vs =>
    if !(vs.length = 1 && options.contains (vs.headD 0)) then
      (-EINVAL, stored, false)
    else
      let v := vs.headD 0
      let r := dset v
      (r, if r = 0 then v else stored, true)

/-- C6: `SetRequestValues` writes through the delegate iff the metadata
carries the control's tag with exactly one value the options accept: an
absent tag returns 0 without calling SetValue; a wrong value count or a
rejected value returns `-EINVAL` without calling SetValue and leaves the
delegate state unmutated; otherwise SetValue is called and its error
code is propagated. -/
theorem control_setRequestValues_spec (dset : Int → Int)
    (options : List Int) (stored : Int) :
    (ControlSetRequestValues dset options none stored =
      (0, stored, false)) ∧
    (∀ vs : List Int, vs.length ≠ 1 →
      ControlSetRequestValues dset options (some vs) stored =
        (-EINVAL, stored, false)) ∧
    (∀ v : Int, options.contains v = false →
      ControlSetRequestValues dset options (some [v]) stored =
        (-EINVAL, stored, false)) ∧
    (∀ v : Int, options.contains v = true →
      ControlSetRequestValues dset options (some [v]) stored =
        (dset v, if dset v = 0 then v else stored, true)) := by
  refine ⟨rfl, ?_, ?_, ?_⟩
  · intro vs hlen
    unfold ControlSetRequestValues
    simp only [Bool.not_eq_true']
    rw [if_pos]
    rw [Bool.and_eq_false_iff]
    left
    exact decide_eq_false hlen
  · intro v hv
    unfold ControlSetRequestValues
    simp only [Bool.not_eq_true']
    rw [if_pos]
    rw [Bool.and_eq_false_iff]
    right
    exact hv
  · intro v hv
    unfold ControlSetRequestValues
    simp [List.mem_of_elem_eq_true hv]

/-- Witness for `control_setRequestValues_spec` mirroring the part_003
scenarios: accepted value 123 written through with return 0; rejected
value and triple-value requests fail with `-EINVAL` without a write;
empty request is a no-op returning 0. -/
theorem control_setRequestValues_spec_witness :
    ControlSetRequestValues (fun _ => 0) [123] (some [123]) 7 =
      (0, 123, true) ∧
    ControlSetRequestValues (fun _ => 0) [5] (some [123]) 7 =
      (-EINVAL, 7, false) ∧
    ControlSetRequestValues (fun _ => 0) [1, 2, 3] (some [1, 2, 3]) 7 =
      (-EINVAL, 7, false) ∧
    ControlSetRequestValues (fun _ => 0) [123] none 7 = (0, 7, false) := by
  have h := control_setRequestValues_spec (fun _ => 0) [123] 7
  have h2 := control_setRequestValues_spec (fun _ => 0) [5] 7
  have h3 := control_setRequestValues_spec (fun _ => 0) [1, 2, 3] 7
  exact ⟨h.2.2.2 123 (by decide), h2.2.2.1 123 (by decide),
    h3.2.1 [1, 2, 3] (by decide), h.1⟩

/-! ### Claim C9: default request template construction -/

/-- Per-template request content: the capture intent, AF mode and
AE target FPS range overlaid onto the base metadata by
`V4L2Camera::initTemplates` (v4l2_camera.cpp lines 1183-1243). -/
structure TemplateMeta where
  captureIntent : Int
  afMode : Int
  fpsRange : Int × Int
deriving DecidableEq, Repr

/-- ANDROID_CONTROL_CAPTURE_INTENT_* values. -/
def INTENT_PREVIEW : Int := 1
def INTENT_STILL_CAPTURE : Int := 2
def INTENT_VIDEO_RECORD : Int := 3
def INTENT_VIDEO_SNAPSHOT : Int := 4

/-- The per-type template builder.  The switch over template ids is that
of `V4L2Camera::initTemplates` (v4l2_camera.cpp lines 1189-1215): the
four supported ids get an intent, an AF mode and an FPS range;
`ZERO_SHUTTER_LAG` and `MANUAL` fall through to `continue`, building
nothing.  The per-type lazy entry point `V4L2Camera::initTemplate`
(declared in part_004 but its body not under src/) is modelled from the
spec, which states that unsupported ids are omitted and a query for them
returns absent. -/
def initTemplate (stillAf videoAf : Int) (flatRange varRange : Int × Int)
    (ttype : Int) : Option TemplateMeta :=
  if ttype = CAMERA3_TEMPLATE_PREVIEW then
    some ⟨INTENT_PREVIEW, stillAf, flatRange⟩
  else if ttype = CAMERA3_TEMPLATE_STILL_CAPTURE then
    some ⟨INTENT_STILL_CAPTURE, stillAf, varRange⟩
  else if ttype = CAMERA3_TEMPLATE_VIDEO_RECORD then
    some ⟨INTENT_VIDEO_RECORD, videoAf, flatRange⟩
  else if ttype = CAMERA3_TEMPLATE_VIDEO_SNAPSHOT then
    some ⟨INTENT_VIDEO_SNAPSHOT, videoAf, flatRange⟩
  else none

/-- `Camera::isValidTemplateType` (camera.cpp lines 353-356). -/
def isValidTemplateType (t : Int) : Bool :=
  t > 0 && t < CAMERA3_TEMPLATE_COUNT

/-- The `mTemplates` cache: one entry per template type in
[0, CAMERA3_TEMPLATE_COUNT), all null at construction. -/
structure TemplateCache where
  templates : List (Option TemplateMeta)
deriving DecidableEq, Repr

/-- `Camera::constructDefaultRequestSettings` (camera.cpp lines 358-384):
reject invalid types; return the cached template if initialized;
otherwise attempt to build it through `initTemplate`, caching on success
and returning null on failure.  The third component counts template
build attempts made by the call. -/
def constructDefaultRequestSettings (stillAf videoAf : Int)
    (flatRange varRange : Int × Int) (tc : TemplateCache) (ttype : Int) :
    Option TemplateMeta × TemplateCache × Nat :=
  if !isValidTemplateType ttype then (none, tc, 0)
  else
    match tc.templates[ttype.toNat]? with
    | some (some t) => (some t, tc, 0)
    | _ =>
      match initTemplate stillAf videoAf flatRange varRange ttype with
      | none => (none, tc, 1)
      | some t =>
        (some t, ⟨tc.templates.set ttype.toNat (some t)⟩, 1)

/-- Caching behaviour of `constructDefaultRequestSettings` for a type
whose initializer succeeds: the first call returns a template (built now
or already cached) and the second call answers from the cache with no
further build. -/
theorem cdrs_builds_once (stillAf videoAf : Int)
    (flatRange varRange : Int × Int) (tc : TemplateCache) (ttype : Int)
    (hv : isValidTemplateType ttype = true) (tm : TemplateMeta)
    (hb : initTemplate stillAf videoAf flatRange varRange ttype = some tm)
    (hidx : ttype.toNat < tc.templates.length) :
    (constructDefaultRequestSettings stillAf videoAf flatRange varRange
      tc ttype).1.isSome = true ∧
    constructDefaultRequestSettings stillAf videoAf flatRange varRange
        (constructDefaultRequestSettings stillAf videoAf flatRange
          varRange tc ttype).2.1 ttype =
      ((constructDefaultRequestSettings stillAf videoAf flatRange varRange
          tc ttype).1,
       (constructDefaultRequestSettings stillAf videoAf flatRange varRange
          tc ttype).2.1, 0) := by
  unfold constructDefaultRequestSettings
  rcases hget : tc.templates[ttype.toNat]? with _ | (_ | t)
  · exfalso
    rw [List.getElem?_eq_none_iff] at hget
    omega
  · have hset : ((tc.templates.set ttype.toNat (some tm))[ttype.toNat]?) =
        some (some tm) :=
      List.getElem?_set_eq (by simpa using hidx)
    simp [hv, hget, hb, hset]
  · simp [hv, hget]

/-- C9: `constructDefaultRequestSettings` returns null for every template
type outside the open interval (0, CAMERA3_TEMPLATE_COUNT) without
touching the cache, and for the unsupported ids `ZERO_SHUTTER_LAG` and
`MANUAL` (whose initializer builds nothing, leaving the cache unchanged
on every call); for each supported id (preview, still-capture,
video-record, video-snapshot) it returns a non-null template that is
built at most once: the second call performs no build and answers from
the cache. -/
theorem constructDefaultRequestSettings_spec (stillAf videoAf : Int)
    (flatRange varRange : Int × Int) (tc : TemplateCache) (ttype : Int)
    (hlen : tc.templates.length = 7) :
    (ttype ≤ 0 ∨ CAMERA3_TEMPLATE_COUNT ≤ ttype →
      constructDefaultRequestSettings stillAf videoAf flatRange varRange
        tc ttype = (none, tc, 0)) ∧
    ((ttype = CAMERA3_TEMPLATE_ZERO_SHUTTER_LAG ∨
        ttype = CAMERA3_TEMPLATE_MANUAL) →
      tc.templates[ttype.toNat]? = some none →
      constructDefaultRequestSettings stillAf videoAf flatRange varRange
        tc ttype = (none, tc, 1)) ∧
    (1 ≤ ttype ∧ ttype ≤ 4 →
      (constructDefaultRequestSettings stillAf videoAf flatRange varRange
        tc ttype).1.isSome = true ∧
      constructDefaultRequestSettings stillAf videoAf flatRange varRange
          (constructDefaultRequestSettings stillAf videoAf flatRange
            varRange tc ttype).2.1 ttype =
        ((constructDefaultRequestSettings stillAf videoAf flatRange varRange
            tc ttype).1,
         (constructDefaultRequestSettings stillAf videoAf flatRange varRange
            tc ttype).2.1, 0)) := by
  refine ⟨?_, ?_, ?_⟩
  · intro hout
    have hv : isValidTemplateType ttype = false := by
      simp only [isValidTemplateType, Bool.and_eq_false_iff,
        decide_eq_false_iff_not, CAMERA3_TEMPLATE_COUNT] at *
      omega
    unfold constructDefaultRequestSettings
    simp [hv]
  · intro hz hentry
    rcases hz with h5 | h5 <;> subst h5
    · have hget : tc.templates[(5 : Nat)]? = some none := hentry
      simp [constructDefaultRequestSettings, isValidTemplateType,
        CAMERA3_TEMPLATE_ZERO_SHUTTER_LAG, CAMERA3_TEMPLATE_COUNT, hget,
        initTemplate, CAMERA3_TEMPLATE_PREVIEW,
        CAMERA3_TEMPLATE_STILL_CAPTURE, CAMERA3_TEMPLATE_VIDEO_RECORD,
        CAMERA3_TEMPLATE_VIDEO_SNAPSHOT]
    · have hget : tc.templates[(6 : Nat)]? = some none := hentry
      simp [constructDefaultRequestSettings, isValidTemplateType,
        CAMERA3_TEMPLATE_MANUAL, CAMERA3_TEMPLATE_COUNT, hget,
        initTemplate, CAMERA3_TEMPLATE_PREVIEW,
        CAMERA3_TEMPLATE_STILL_CAPTURE, CAMERA3_TEMPLATE_VIDEO_RECORD,
        CAMERA3_TEMPLATE_VIDEO_SNAPSHOT]
  · intro hsup
    obtain ⟨h1, h4⟩ := hsup
    have hv : isValidTemplateType ttype = true := by
      simp only [isValidTemplateType, Bool.and_eq_true, decide_eq_true_iff,
        CAMERA3_TEMPLATE_COUNT]
      omega
    have hb : ∃ tm, initTemplate stillAf videoAf flatRange varRange ttype =
        some tm := by
      interval_cases ttype <;> exact ⟨_, rfl⟩
    obtain ⟨tm, hb⟩ := hb
    have hidx : ttype.toNat < tc.templates.length := by omega
    exact cdrs_builds_once stillAf videoAf flatRange varRange tc ttype hv
      tm hb hidx

/-- The freshly constructed template cache (`memset` to null in the
`Camera` constructor, one slot per template type). -/
def emptyTemplateCache : TemplateCache := ⟨List.replicate 7 none⟩

/-- Witness for `constructDefaultRequestSettings_spec`: on the fresh
cache, type 0 is rejected, ZERO_SHUTTER_LAG yields null without caching
anything, and PREVIEW yields a template. -/
theorem constructDefaultRequestSettings_spec_witness :
    constructDefaultRequestSettings 0 0 (30, 30) (5, 30)
        emptyTemplateCache 0 = (none, emptyTemplateCache, 0) ∧
    constructDefaultRequestSettings 0 0 (30, 30) (5, 30)
        emptyTemplateCache 5 = (none, emptyTemplateCache, 1) ∧
    (constructDefaultRequestSettings 0 0 (30, 30) (5, 30)
        emptyTemplateCache 1).1.isSome = true := by
  have h0 := constructDefaultRequestSettings_spec 0 0 (30, 30) (5, 30)
    emptyTemplateCache 0 (by decide)
  have h5 := constructDefaultRequestSettings_spec 0 0 (30, 30) (5, 30)
    emptyTemplateCache 5 (by decide)
  have h1 := constructDefaultRequestSettings_spec 0 0 (30, 30) (5, 30)
    emptyTemplateCache 1 (by decide)
  exact ⟨h0.1 (Or.inl (by norm_num)),
    h5.2.1 (Or.inl rfl) (by decide),
    (h1.2.2 ⟨by norm_num, by norm_num⟩).1⟩

/-! ### Claim C7: FPS range derivation in initCharacteristics

`V4L2Camera::initCharacteristics` (v4l2_camera.cpp lines 1504-1581)
iterates over every supported HAL format and its frame sizes, tracking
the smallest maximum frame duration seen across ALL formats
(`mMaxFrameDuration`) and the smallest minimum frame duration among
YCbCr_420_888 entries only (`min_yuv_frame_duration`).  The per-format
frame-size and duration data the device reports is the input here. -/

structure SizeDurations where
  width : Int
  height : Int
  minDuration : Int
  maxDuration : Int
deriving DecidableEq, Repr

structure FormatData where
  halFormat : Int
  sizes : List SizeDurations
deriving DecidableEq, Repr

/-- `std::numeric_limits<int64_t>::max()`. -/
def INT64_MAX : Int := 2 ^ 63 - 1

/-- One iteration of the inner frame-size loop (v4l2_camera.cpp lines
1537-1554): `mMaxFrameDuration` takes any smaller maximum duration from
ANY format; `min_yuv_frame_duration` takes a smaller minimum duration
only from YCbCr_420_888 entries. -/
def durationStep (halFormat : Int) (acc : Int × Int) (sd : SizeDurations) :
    Int × Int :=
  let mfd := if sd.maxDuration < acc.1 then sd.maxDuration else acc.1
  let myd :=
    if halFormat = HAL_PIXEL_FORMAT_YCbCr_420_888 ∧ sd.minDuration < acc.2
    then sd.minDuration else acc.2
  (mfd, myd)

/-- The two-accumulator format/size loop of `initCharacteristics`
(lines 1504-1565), both accumulators starting at
`std::numeric_limits<int64_t>::max()`. -/
def accumulateDurations (data : List FormatData) : Int × Int :=
  data.foldl (fun acc fd => fd.sizes.foldl (durationStep fd.halFormat) acc)
    (INT64_MAX, INT64_MAX)

/-- The FPS-range derivation of `initCharacteristics` (lines 1567-1581):
`min_yuv_fps = 10^9 / mMaxFrameDuration` (reject the device with
`-ENODEV` when above 15), `max_yuv_fps = 10^9 / min_yuv_frame_duration`,
ranges `[min, max]` and `[max, max]`, plus `[30, 30]` when
`max_yuv_fps > 30`.  C++ int64 division truncates toward zero
(`Int.div`). -/
def deriveFpsRanges (data : List FormatData) :
    Except Int (List (Int × Int)) :=
  let acc := accumulateDurations data
  let minYuvFps := Int.div 1000000000 acc.1
  if minYuvFps > 15 then Except.error (-ENODEV)
  else
    let maxYuvFps := Int.div 1000000000 acc.2
    Except.ok ([(minYuvFps, maxYuvFps), (maxYuvFps, maxYuvFps)] ++
      (if maxYuvFps > 30 then [(30, 30)] else []))

/-- All maximum frame durations reported for any format. -/
def allMaxDurations (data : List FormatData) : List Int :=
  (data.map fun fd => fd.sizes.map SizeDurations.maxDuration).join

/-- The minimum frame durations reported for YCbCr_420_888 only. -/
def yuvMinDurations (data : List FormatData) : List Int :=
  ((data.filter fun fd =>
      fd.halFormat = HAL_PIXEL_FORMAT_YCbCr_420_888).map
    fun fd => fd.sizes.map SizeDurations.minDuration).join

/-- YCbCr_420_888 maximum frame durations only (what claim C7 says
`min_yuv_fps` is computed from). -/
def yuvMaxDurations (data : List FormatData) : List Int :=
  ((data.filter fun fd =>
      fd.halFormat = HAL_PIXEL_FORMAT_YCbCr_420_888).map
    fun fd => fd.sizes.map SizeDurations.maxDuration).join

/-- Minimum of a duration list, `INT64_MAX` when empty. -/
def listMin (l : List Int) : Int := l.foldl min INT64_MAX

/-- Definition following the words of claim C7 (for comparison with the
code): min_yuv_fps and max_yuv_fps are the minimum and maximum frame
rates FOR THE YCbCr_420_888 FORMAT, converted from its frame durations;
ranges and the ≤ 15 rejection are as in the code. -/
def claimFpsRangesC7 (data : List FormatData) :
    Except Int (List (Int × Int)) :=
  let minYuvFps := Int.div 1000000000 (listMin (yuvMaxDurations data))
  if minYuvFps > 15 then Except.error (-ENODEV)
  else
    let maxYuvFps := Int.div 1000000000 (listMin (yuvMinDurations data))
    Except.ok ([(minYuvFps, maxYuvFps), (maxYuvFps, maxYuvFps)] ++
      (if maxYuvFps > 30 then [(30, 30)] else []))

/-- A device reporting JPEG (BLOB) frames with maximum duration 80 ms
and YCbCr frames with duration range [33.33 ms, 100 ms]. -/
def fpsCounterexampleData : List FormatData :=
  [⟨HAL_PIXEL_FORMAT_BLOB, [⟨640, 480, 50000000, 80000000⟩]⟩,
   ⟨HAL_PIXEL_FORMAT_YCbCr_420_888, [⟨640, 480, 33333333, 100000000⟩]⟩]

/-- Counterexample to C7 as stated: the code computes `min_yuv_fps` from
the smallest maximum frame duration across ALL formats, not from
YCbCr_420_888 alone.  On `fpsCounterexampleData` the code derives a
first range of [12, 30] (12 = 10^9 / 80000000, the BLOB maximum
duration) while the claim's YCbCr-only reading predicts [10, 30]
(10 = 10^9 / 100000000). -/
theorem fps_min_not_yuv_specific_counterexample :
    deriveFpsRanges fpsCounterexampleData =
      Except.ok [(12, 30), (30, 30)] ∧
    claimFpsRangesC7 fpsCounterexampleData =
      Except.ok [(10, 30), (30, 30)] ∧
    deriveFpsRanges fpsCounterexampleData ≠
      claimFpsRangesC7 fpsCounterexampleData := by
  refine ⟨rfl, rfl, ?_⟩
  intro h
  rw [show deriveFpsRanges fpsCounterexampleData =
        Except.ok [((12 : Int), (30 : Int)), (30, 30)] from rfl] at h
  rw [show claimFpsRangesC7 fpsCounterexampleData =
        Except.ok [((10 : Int), (30 : Int)), (30, 30)] from rfl] at h
  simp at h

theorem durationStep_eq (h : Int) (acc : Int × Int) (sd : SizeDurations) :
    durationStep h acc sd =
      (min acc.1 sd.maxDuration,
       if h = HAL_PIXEL_FORMAT_YCbCr_420_888 then min acc.2 sd.minDuration
       else acc.2) := by
  unfold durationStep
  by_cases hy : h = HAL_PIXEL_FORMAT_YCbCr_420_888 <;>
    · simp only [hy, true_and, false_and, if_false, Prod.mk.injEq]
      constructor <;> simp only [min_def] <;> split_ifs <;> omega

theorem foldl_durationStep (h : Int) (sizes : List SizeDurations) :
    ∀ acc : Int × Int,
      sizes.foldl (durationStep h) acc =
        (sizes.foldl (fun m sd => min m sd.maxDuration) acc.1,
         if h = HAL_PIXEL_FORMAT_YCbCr_420_888 then
           sizes.foldl (fun m sd => min m sd.minDuration) acc.2
         else acc.2) := by
  induction sizes with
  | nil =>
    intro acc
    by_cases hy : h = HAL_PIXEL_FORMAT_YCbCr_420_888 <;> simp [hy]
  | cons sd rest ih =>
    intro acc
    simp only [List.foldl_cons, durationStep_eq]
    rw [ih]
    by_cases hy : h = HAL_PIXEL_FORMAT_YCbCr_420_888 <;> simp [hy]

theorem accumulate_general (data : List FormatData) :
    ∀ a y : Int,
      data.foldl
          (fun acc fd => fd.sizes.foldl (durationStep fd.halFormat) acc)
          (a, y) =
        ((allMaxDurations data).foldl min a,
         (yuvMinDurations data).foldl min y) := by
  induction data with
  | nil => intro a y; simp [allMaxDurations, yuvMinDurations]
  | cons fd rest ih =>
    intro a y
    simp only [List.foldl_cons]
    rw [foldl_durationStep]
    by_cases hy : fd.halFormat = HAL_PIXEL_FORMAT_YCbCr_420_888
    · simp only [hy, if_true, if_pos rfl]
      rw [ih]
      simp [Prod.mk.injEq, allMaxDurations, yuvMinDurations, hy,
        List.foldl_append, List.foldl_map, List.filter_cons]
    · simp only [hy, if_false]
      rw [ih]
      simp [Prod.mk.injEq, allMaxDurations, yuvMinDurations, hy,
        List.foldl_append, List.foldl_map, List.filter_cons]

/-- C7 (amended): the first FPS endpoint is computed from the smallest
maximum frame duration across ALL supported formats (the code advertises
the smallest available maximum duration, "just in case" formats
disagree), while the second comes from the YCbCr-only minimum duration;
the derived set is exactly [min_fps, max_fps] and [max_fps, max_fps]
plus [30, 30] when max_fps > 30, and the device is rejected with
`-ENODEV` exactly when the (all-format) min_fps exceeds 15. -/
theorem initCharacteristics_fps_amended (data : List FormatData) :
    accumulateDurations data =
      (listMin (allMaxDurations data), listMin (yuvMinDurations data)) ∧
    deriveFpsRanges data =
      (if Int.div 1000000000 (listMin (allMaxDurations data)) > 15 then
        Except.error (-ENODEV)
      else
        Except.ok
          ([(Int.div 1000000000 (listMin (allMaxDurations data)),
             Int.div 1000000000 (listMin (yuvMinDurations data))),
            (Int.div 1000000000 (listMin (yuvMinDurations data)),
             Int.div 1000000000 (listMin (yuvMinDurations data)))] ++
           (if Int.div 1000000000 (listMin (yuvMinDurations data)) > 30
            then [(30, 30)] else []))) := by
  have hacc : accumulateDurations data =
      (listMin (allMaxDurations data), listMin (yuvMinDurations data)) := by
    unfold accumulateDurations listMin
    exact accumulate_general data INT64_MAX INT64_MAX
  refine ⟨hacc, ?_⟩
  unfold deriveFpsRanges
  rw [hacc]

end CameraHal
